import Mathlib

/-!
Shallow embedding of `src/interactive_ai_tutor.py` (class `TechnicalTutor`):
the model registry, session state, command handler, save routine, question
dispatch, and one iteration of the interactive loop. External effects
(backend reachability, backend completion results, clock, filesystem
writability) are passed in explicitly through an `Env` value describing the
world at the time of the call.
-/

namespace InteractiveAiTutor

/-- Entry of the `AVAILABLE_MODELS` table: `{'name', 'provider', 'description'}`. -/
structure ModelInfo where
  name : String
  provider : String
  description : String
deriving DecidableEq, Repr

/-- Constant `MODEL_GPT = 'gpt-4o-mini'`. -/
def MODEL_GPT : String := "gpt-4o-mini"

/-- Constant `MODEL_LLAMA = 'llama3.2'`. -/
def MODEL_LLAMA : String := "llama3.2"

/-- The `AVAILABLE_MODELS` dict, in its insertion order. -/
def AVAILABLE_MODELS : List (String × ModelInfo) :=
  [("gpt", ⟨MODEL_GPT, "openai", "OpenAI GPT-4o Mini"⟩),
   ("llama", ⟨MODEL_LLAMA, "ollama", "Llama 3.2 (Local)"⟩)]

/-- Keys of the registry, `AVAILABLE_MODELS.keys()`, in order. -/
def modelKeys : List String := AVAILABLE_MODELS.map Prod.fst

/-- Dictionary lookup `AVAILABLE_MODELS.get(key)`. -/
def lookupModel (key : String) : Option ModelInfo :=
  (AVAILABLE_MODELS.find? (fun p => p.1 == key)).map Prod.snd

/-- The world at the time of one call into the tutor: startup-time client
state, call-time backend state, clock and filesystem. -/
structure Env where
  /-- Value of `self.openai_client is not None`: whether `OpenAI()` succeeded at
  startup (it only checks for credentials; it does not contact the cloud). -/
  openaiClient : Bool
  /-- Whether the cloud completion backend is actually reachable at the time
  of this call. The source never consults this for availability. -/
  openaiReachableNow : Bool
  /-- Result of `ollama.list()` at the time of this call: the names of the
  locally installed models, or `none` if the call raises. -/
  ollamaModels : Option (List String)
  /-- Outcome of a cloud completion call made now: the answer text, or `none`
  if the call raises. -/
  openaiResponse : Option String
  /-- Outcome of a local completion call made now. -/
  ollamaResponse : Option String
  /-- Clock value `datetime.now().strftime("%Y%m%d_%H%M%S")` for the export filename. -/
  ts : String
  /-- Clock value `datetime.now().strftime('%Y-%m-%d %H:%M:%S')` for the export header. -/
  now : String
  /-- Whether opening the export file for writing succeeds. -/
  writable : Bool
deriving DecidableEq, Repr

/-- Whether `n` occurs as a contiguous run inside the second list. -/
def strInAux (n : List Char) : List Char → Bool
  | [] => n.isEmpty
  | c :: rest => List.isPrefixOf n (c :: rest) || strInAux n rest

/-- Python substring containment `needle in hay` on the character lists. -/
def strIn (needle : String) (hay : String) : Bool :=
  strInAux needle.data hay.data

/-- Python `s.startswith(pre)` on the character lists. -/
def pyStartsWith (s : String) (pre : String) : Bool :=
  List.isPrefixOf pre.data s.data

/-- Python `s.lower()`: lowercase every character. -/
def pyLower (s : String) : String :=
  String.mk (s.data.map Char.toLower)

/-- Accumulator pass of Python `str.split()`: `acc` holds the reversed
characters of the word being read; whitespace runs produce no empty words. -/
def splitWsAux : List Char → List Char → List String
  | [], acc => if acc.isEmpty then [] else [String.mk acc.reverse]
  | c :: cs, acc =>
    if c.isWhitespace then
      (if acc.isEmpty then [] else [String.mk acc.reverse]) ++ splitWsAux cs []
    else
      splitWsAux cs (c :: acc)

/-- Python's `str.split()`: split on whitespace runs, no empty pieces. -/
def pySplit (s : String) : List String :=
  splitWsAux s.data []

/-- Method `test_model_availability` (lines 95-109): unknown key is
unavailable; `openai` reduces to the startup client handle being present;
`ollama` lists the installed models now and checks name containment, with an
exception caught as unavailable. -/
def test_model_availability (env : Env) (model_key : String) : Bool :=
  match lookupModel model_key with
  | none => false
  | some info =>
    if info.provider == "openai" then
      env.openaiClient
    else if info.provider == "ollama" then
      match env.ollamaModels with
      | none => false
      | some ms => ms.any (fun m => strIn info.name m)
    else false

/-- Modelled from the spec: the availability notion claimed by the spec's
design note — "a live re-check on every reference": the result of a fresh
reachability probe of the key's backend performed at call time. For the
local provider the fresh probe is listing the installed models now (as the
source does); for the cloud provider it is the backend's reachability now. -/
def freshAvailability (env : Env) (key : String) : Bool :=
  match lookupModel key with
  | none => false
  | some info =>
    if info.provider == "openai" then
      env.openaiReachableNow
    else if info.provider == "ollama" then
      match env.ollamaModels with
      | none => false
      | some ms => ms.any (fun m => strIn info.name m)
    else false

/-- The per-model availability badges computed by `display_welcome`
(lines 86-88): one `test_model_availability` call per registry key, at
render time. -/
def display_welcome (env : Env) : List (String × Bool) :=
  AVAILABLE_MODELS.map (fun p => (p.1, test_model_availability env p.1))

/-- The session state owned by `TechnicalTutor`. -/
structure TutorState where
  current_model : String
  conversation_history : List (String × String)
deriving DecidableEq, Repr

/-- State built by `__init__` (lines 35-38): empty history, default model `'llama'`. -/
def initialState : TutorState :=
  { current_model := "llama", conversation_history := [] }

/-- Outcome of `save_conversation` (lines 183-204). -/
inductive SaveResult where
  /-- File written: its name and full content. -/
  | ok (filename : String) (content : String)
  /-- Branch `if not self.conversation_history`: "No conversation to save." -/
  | noHistory
  /-- The `open`/`write` raised: "Error saving conversation". -/
  | writeError
deriving DecidableEq, Repr

/-- The three `f.write` calls of one loop iteration of `save_conversation`
(lines 196-199), for entry number `i`. -/
def entryWrites (i : Nat) (question answer : String) : String :=
  "## Question " ++ toString i ++ "\n\n" ++ question ++ "\n\n" ++
  "## Answer " ++ toString i ++ "\n\n" ++ answer ++ "\n\n" ++
  "---\n\n"

/-- The writes of the `for i, (question, answer) in enumerate(..., 1)` loop,
starting at entry number `i`, in order. -/
def writeEntries (i : Nat) : List (String × String) → String
  | [] => ""
  | (q, a) :: rest => entryWrites i q a ++ writeEntries (i + 1) rest

/-- Method `save_conversation` (lines 183-204): refuse on empty history; otherwise
write the header then the numbered entries in insertion order to
`tutor_conversation_<ts>.md`. -/
def save_conversation (env : Env) (history : List (String × String)) : SaveResult :=
  if history.isEmpty then
    .noHistory
  else if env.writable then
    .ok ("tutor_conversation_" ++ env.ts ++ ".md")
      ("# AI Tutor Conversation - " ++ env.now ++ "\n\n" ++ writeEntries 1 history)
  else
    .writeError

/-- What one turn of the tutor reports to the user (print/display calls). -/
inductive Report where
  | goodbye
  | helpText
  | switched (key : String)
  | unavailableModel (key : String)
  | unknownModel (available : List String)
  | currentModelIs (key : String)
  | historyPreview (lines : List String)
  | noHistoryYet
  | cleared
  | saveOutcome (r : SaveResult)
  | unknownCommand (verb : String)
  | emptyPrompt
  | answered (text : String)
  | noResponse
  | unexpectedError
deriving DecidableEq, Repr

/-- The `!model <arg>` branch of `handle_command` (lines 150-158): lowercase
the argument, require registry membership, then require availability at call
time; only then change the selection. -/
def selectModel (env : Env) (st : TutorState) (arg : String) :
    TutorState × Report :=
  if modelKeys.contains (pyLower arg) then
    if test_model_availability env (pyLower arg) then
      ({ st with current_model := pyLower arg }, .switched (pyLower arg))
    else
      (st, .unavailableModel (pyLower arg))
  else
    (st, .unknownModel modelKeys)

/-- The `!history` preview line for one stored question (line 166):
the first 100 characters of `q` plus an ellipsis marker when `len(q) > 100`. -/
def previewLine (q : String) : String :=
  String.mk (q.data.take 100) ++ (if q.data.length > 100 then "..." else "")

/-- Result of `handle_command` (lines 124-181). -/
inductive CmdResult where
  /-- Input does not start with `'!'`: the handler returns `False`. -/
  | notCommand
  /-- Handler returned `True`, with the updated state and what it printed. -/
  | handled (st : TutorState) (report : Report)
  /-- Access `parts[0]` raised `IndexError` (sentinel with no words after it). -/
  | indexError
deriving DecidableEq, Repr

/-- Method `handle_command` (lines 124-181): sentinel check, whitespace split,
case-insensitive verb dispatch over quit/exit, help, model, history, clear,
save, and the unknown-command fallback. -/
def handle_command (env : Env) (st : TutorState) (command : String) : CmdResult :=
  if ¬ pyStartsWith command "!" then
    .notCommand
  else
    match pySplit (String.mk (command.data.drop 1)) with
    | [] => .indexError
    | p0 :: rest =>
      if pyLower p0 == "quit" || pyLower p0 == "exit" then
        .handled st .goodbye
      else if pyLower p0 == "help" then
        .handled st .helpText
      else if pyLower p0 == "model" then
        match rest with
        | [] => .handled st (.currentModelIs st.current_model)
        | arg :: _ =>
          .handled (selectModel env st arg).1 (selectModel env st arg).2
      else if pyLower p0 == "history" then
        if st.conversation_history.isEmpty then
          .handled st .noHistoryYet
        else
          .handled st (.historyPreview (st.conversation_history.map (fun p => previewLine p.1)))
      else if pyLower p0 == "clear" then
        .handled { st with conversation_history := [] } .cleared
      else if pyLower p0 == "save" then
        .handled st (.saveOutcome (save_conversation env st.conversation_history))
      else
        .handled st (.unknownCommand (pyLower p0))

/-- Method `ask_question` (lines 206-232): dispatch the completion call to the
provider of the currently selected model; any exception (including a missing
cloud client) is caught and reported as `None`. The registry lookup
`AVAILABLE_MODELS[self.current_model]` is done by the caller first. -/
def ask_question (env : Env) (info : ModelInfo) : Option String :=
  if info.provider == "openai" then
    if env.openaiClient then env.openaiResponse else none
  else if info.provider == "ollama" then
    env.ollamaResponse
  else none

/-- Whether the loop continues after this turn or `break`s out. -/
inductive LoopAction where
  | cont
  | brk
deriving DecidableEq, Repr

/-- Everything observable about one iteration of the `while True` loop. -/
structure StepResult where
  state : TutorState
  action : LoopAction
  /-- Whether a completion backend call was made this turn (the body of
  `ask_question`); availability probes are not completion calls. -/
  completionCalled : Bool
  report : Report
deriving DecidableEq, Repr

/-- One iteration of `run_interactive_session`'s loop (lines 238-274) on the
already-stripped input line: empty-input rejection, command handling with the
case-sensitive `startswith('!quit')`/`startswith('!exit')` break check, the
question path recording `(question, answer)` only on a truthy answer, and the
generic `except Exception` handler that reports and continues. -/
def runTurn (env : Env) (st : TutorState) (question : String) : StepResult :=
  if question == "" then
    ⟨st, .cont, false, .emptyPrompt⟩
  else
    match handle_command env st question with
    | .indexError => ⟨st, .cont, false, .unexpectedError⟩
    | .handled st' rep =>
      if pyStartsWith question "!quit" || pyStartsWith question "!exit" then
        ⟨st', .brk, false, rep⟩
      else
        ⟨st', .cont, false, rep⟩
    | .notCommand =>
      match lookupModel st.current_model with
      | none => ⟨st, .cont, false, .unexpectedError⟩
      | some info =>
        match ask_question env info with
        | some answer =>
          if answer ≠ "" then
            ⟨{ st with conversation_history := st.conversation_history ++ [(question, answer)] },
              .cont, true, .answered answer⟩
          else
            ⟨st, .cont, true, .noResponse⟩
        | none => ⟨st, .cont, true, .noResponse⟩

/-! ### Claim-side view of the export format -/

/-- The list of per-entry blocks of the export file, in history order, entry
numbering starting at `i`: this is the block structure the spec describes. -/
def specBlocks (i : Nat) : List (String × String) → List String
  | [] => []
  | (q, a) :: rest => entryWrites i q a :: specBlocks (i + 1) rest

/-- Concatenation of a list of blocks into file content. -/
def concatBlocks (l : List String) : String := l.foldr (fun b r => b ++ r) ""

/-! ### Concrete worlds and histories used by witnesses -/

/-- A world where both backends are fully up and the local daemon has the
`llama3.2` model installed. -/
def envUp : Env :=
  ⟨true, true, some ["llama3.2:latest"], some "a cloud answer", some "a local answer",
    "20260101_120000", "2026-01-01 12:00:00", true⟩

/-- A world where the local daemon is down (listing models raises) and both
completion calls fail. -/
def envDown : Env :=
  ⟨true, false, none, none, none, "20260101_120000", "2026-01-01 12:00:00", true⟩

/-- A world where the startup client handle exists but the cloud backend is
unreachable at call time, and the local daemon reports no installed models. -/
def envC9 : Env := ⟨true, false, some [], none, none, "", "", true⟩

/-- The two-entry history from the spec's export scenario. -/
def histW : List (String × String) :=
  [("what is a list?", "A list is ..."), ("explain recursion", "Recursion is ...")]

/-- The registry entry for the `llama` key. -/
def infoLlama : ModelInfo := ⟨MODEL_LLAMA, "ollama", "Llama 3.2 (Local)"⟩

/-! ### Helper lemmas -/

/-- The sequential writes of the save loop are exactly the concatenation of
the per-entry blocks. -/
theorem writeEntries_eq_concat (hist : List (String × String)) :
    ∀ i, writeEntries i hist = concatBlocks (specBlocks i hist) := by
  induction hist with
  | nil => intro i; rfl
  | cons p rest ih =>
    intro i
    obtain ⟨q, a⟩ := p
    show entryWrites i q a ++ writeEntries (i + 1) rest = _
    rw [ih (i + 1)]
    rfl

/-- There is exactly one block per history entry. -/
theorem specBlocks_length (hist : List (String × String)) :
    ∀ i, (specBlocks i hist).length = hist.length := by
  induction hist with
  | nil => intro i; rfl
  | cons p rest ih =>
    intro i
    obtain ⟨q, a⟩ := p
    simpa [specBlocks] using ih (i + 1)

/-- The `j`-th block renders the `j`-th history entry, with entry number
`i + j` when numbering starts at `i`. -/
theorem specBlocks_getElem (hist : List (String × String)) :
    ∀ i j q a, hist[j]? = some (q, a) →
      (specBlocks i hist)[j]? = some (entryWrites (i + j) q a) := by
  induction hist with
  | nil => intro i j q a h; simp at h
  | cons p rest ih =>
    intro i j q a h
    obtain ⟨q', a'⟩ := p
    cases j with
    | zero =>
      simp only [List.getElem?_cons_zero, Option.some_inj] at h
      obtain ⟨hq, ha⟩ := Prod.mk.injEq .. ▸ h
      simp [specBlocks, ← hq, ← ha]
    | succ k =>
      simp only [List.getElem?_cons_succ] at h
      have hk := ih (i + 1) k q a h
      have harith : i + 1 + k = i + (k + 1) := by omega
      rw [harith] at hk
      simpa [specBlocks] using hk

/-- An input that does not start with the sentinel is not a command. -/
theorem handle_command_not_sentinel (env : Env) (st : TutorState) (c : String)
    (h : pyStartsWith c "!" = false) :
    handle_command env st c = .notCommand := by
  unfold handle_command
  rw [if_pos (by simp [h])]

/-- An input that starts with the sentinel is always treated as a command
(possibly raising on the bare sentinel), never passed through. -/
theorem handle_command_ne_notCommand (env : Env) (st : TutorState) (c : String)
    (h : pyStartsWith c "!" = true) :
    handle_command env st c ≠ .notCommand := by
  unfold handle_command
  rw [if_neg (by simp [h])]
  repeat' split
  all_goals simp

/-- Case analysis of the model-switch branch: either the state is untouched,
or the selection moves to the lowercased argument, which is then a registry
key that tested available in the call-time world. -/
theorem selectModel_fst (env : Env) (st : TutorState) (arg : String) :
    (selectModel env st arg).1 = st ∨
    ((selectModel env st arg).1 = { st with current_model := pyLower arg } ∧
      modelKeys.contains (pyLower arg) = true ∧
      test_model_availability env (pyLower arg) = true) := by
  unfold selectModel
  split
  · next h1 =>
    split
    · next h2 => exact Or.inr ⟨rfl, h1, h2⟩
    · exact Or.inl rfl
  · exact Or.inl rfl

/-- Whatever a handled command does to the state: the selection is either
untouched or moved to a registry key, and the history is either untouched or
fully cleared. -/
theorem handle_command_handled (env : Env) (st : TutorState) (c : String)
    (st' : TutorState) (rep : Report)
    (h : handle_command env st c = .handled st' rep) :
    (st'.current_model = st.current_model ∨
      modelKeys.contains st'.current_model = true) ∧
    (st'.conversation_history = st.conversation_history ∨
      st'.conversation_history = []) := by
  unfold handle_command at h
  split at h
  · cases h
  · split at h
    · cases h
    · repeat' split at h
      all_goals cases h
      all_goals try exact ⟨Or.inl rfl, Or.inl rfl⟩
      · -- model-switch branch
        rcases selectModel_fst env st _ with hs | ⟨hs, hk, _⟩
        · rw [hs]; exact ⟨Or.inl rfl, Or.inl rfl⟩
        · rw [hs]; exact ⟨Or.inr hk, Or.inl rfl⟩
      · -- clear branch
        exact ⟨Or.inl rfl, Or.inr rfl⟩

/-! ### Claims -/

/-- C1: on any non-empty history with a writable target, `save_conversation`
writes the file whose content is the header followed by exactly one block per
history entry, concatenated in insertion order; the number of blocks equals
the history length, and the block for the `j`-th entry (numbered from 1) is
the level-2 heading `Question <j>`, the question text, the level-2 heading
`Answer <j>`, the answer text, then the horizontal rule. -/
theorem save_one_block_per_entry (env : Env) (hist : List (String × String))
    (hne : hist ≠ []) (hw : env.writable = true) :
    save_conversation env hist =
      .ok ("tutor_conversation_" ++ env.ts ++ ".md")
        ("# AI Tutor Conversation - " ++ env.now ++ "\n\n" ++
          concatBlocks (specBlocks 1 hist)) ∧
    (specBlocks 1 hist).length = hist.length ∧
    (∀ j q a, hist[j]? = some (q, a) →
      (specBlocks 1 hist)[j]? = some (entryWrites (j + 1) q a)) := by
  refine ⟨?_, specBlocks_length hist 1, ?_⟩
  · unfold save_conversation
    rw [if_neg (by simp [hne]), if_pos hw, writeEntries_eq_concat]
  · intro j q a h
    have hj := specBlocks_getElem hist 1 j q a h
    rwa [Nat.add_comm 1 j] at hj

/-- Witness for C1 at the spec's two-entry scenario history. -/
theorem save_one_block_per_entry_witness :
    histW ≠ [] ∧ envUp.writable = true ∧
    (save_conversation envUp histW =
      .ok ("tutor_conversation_" ++ envUp.ts ++ ".md")
        ("# AI Tutor Conversation - " ++ envUp.now ++ "\n\n" ++
          concatBlocks (specBlocks 1 histW)) ∧
    (specBlocks 1 histW).length = histW.length ∧
    (∀ j q a, histW[j]? = some (q, a) →
      (specBlocks 1 histW)[j]? = some (entryWrites (j + 1) q a))) :=
  ⟨by decide, rfl, save_one_block_per_entry envUp histW (by decide) rfl⟩

/-- C2 amended: the model-switch handler leaves the state untouched and
reports an unknown model (listing the registry keys) when the key is not
registered; leaves the state untouched and reports the model unavailable
when the key is registered but its availability test fails in the call-time
world; and the selection changes only when the key is registered and its
availability test passes — where the availability test is a fresh listing of
the installed local models for the local provider, but only the presence of
the startup client handle for the cloud provider, not the cloud backend's
reachability at call time. -/
theorem selectModel_semantics (env : Env) (st : TutorState) (arg : String) :
    (modelKeys.contains (pyLower arg) = false →
      selectModel env st arg = (st, .unknownModel modelKeys)) ∧
    (modelKeys.contains (pyLower arg) = true →
      test_model_availability env (pyLower arg) = false →
      selectModel env st arg = (st, .unavailableModel (pyLower arg))) ∧
    ((selectModel env st arg).1.current_model ≠ st.current_model →
      modelKeys.contains (pyLower arg) = true ∧
      test_model_availability env (pyLower arg) = true ∧
      (selectModel env st arg).1 = { st with current_model := pyLower arg }) := by
  refine ⟨?_, ?_, ?_⟩
  · intro h
    unfold selectModel
    rw [if_neg (by simp_all)]
  · intro h1 h2
    unfold selectModel
    rw [if_pos (by simp_all), if_neg (by simp [h2])]
  · intro hch
    rcases selectModel_fst env st arg with hs | ⟨hs, h1, h2⟩
    · exact absurd (by rw [hs]) hch
    · exact ⟨h1, h2, hs⟩

/-- Witness for C2: unknown key `ggpt` rejected; known key `llama` rejected
when the local daemon is down; known key `GPT` (case-insensitively) accepted
when available. -/
theorem selectModel_semantics_witness :
    (modelKeys.contains (pyLower "ggpt") = false ∧
      selectModel envUp initialState "ggpt" = (initialState, .unknownModel modelKeys)) ∧
    (modelKeys.contains (pyLower "llama") = true ∧
      test_model_availability envDown (pyLower "llama") = false ∧
      selectModel envDown initialState "llama" =
        (initialState, .unavailableModel (pyLower "llama"))) ∧
    ((selectModel envUp initialState "GPT").1.current_model ≠ initialState.current_model ∧
      modelKeys.contains (pyLower "GPT") = true ∧
      test_model_availability envUp (pyLower "GPT") = true ∧
      (selectModel envUp initialState "GPT").1 =
        { initialState with current_model := pyLower "GPT" }) :=
  ⟨⟨by decide, (selectModel_semantics envUp initialState "ggpt").1 (by decide)⟩,
   ⟨by decide, by decide,
     (selectModel_semantics envDown initialState "llama").2.1 (by decide) (by decide)⟩,
   ⟨by decide, (selectModel_semantics envUp initialState "GPT").2.2 (by decide)⟩⟩

/-- C2 counterexample: in the concrete world `envC9` the cloud backend is
unreachable at call time and `gpt` is a registered key, yet the model-switch
handler changes the selection to `gpt` and reports success — so a registered
key whose backend is unreachable at call time does not leave the selection
unchanged with an unavailable-model report, and the selection can change
although the backend does not report reachable: the claim's unreachable-at-
call-time clauses are false of the code. -/
theorem selectModel_unreachable_counterexample :
    modelKeys.contains "gpt" = true ∧
    envC9.openaiReachableNow = false ∧
    freshAvailability envC9 "gpt" = false ∧
    selectModel envC9 initialState "gpt" =
      ({ initialState with current_model := "gpt" }, .switched "gpt") := by
  decide

/-- C3: any input line starting with the sentinel character is handled as a
command and never reaches a completion backend: no completion call happens
during that turn, whatever the verb. -/
theorem command_never_forwarded (env : Env) (st : TutorState) (input : String)
    (h : pyStartsWith input "!" = true) :
    (runTurn env st input).completionCalled = false := by
  unfold runTurn
  split
  · rfl
  · split
    · rfl
    · split <;> rfl
    · next heq => exact absurd heq (handle_command_ne_notCommand env st input h)

/-- Witness for C3 at an unrecognized sentinel verb. -/
theorem command_never_forwarded_witness :
    pyStartsWith "!frobnicate now" "!" = true ∧
    (runTurn envUp initialState "!frobnicate now").completionCalled = false :=
  ⟨by decide, command_never_forwarded envUp initialState "!frobnicate now" (by decide)⟩

/-- C4: saving an empty history fails with the no-history condition and
writes nothing; in particular, in any session state and any worlds, the clear
command followed immediately by the save command yields exactly the
no-history report, with the state unchanged and the loop continuing. -/
theorem clear_then_save_no_history (env₁ env₂ : Env) (st : TutorState) :
    save_conversation env₂ [] = .noHistory ∧
    (runTurn env₁ st "!clear").state.conversation_history = [] ∧
    runTurn env₂ (runTurn env₁ st "!clear").state "!save" =
      ⟨(runTurn env₁ st "!clear").state, .cont, false, .saveOutcome .noHistory⟩ :=
  ⟨rfl, rfl, rfl⟩

/-- C5: the unrecognized verb `oops` is reported as an unknown command and
the loop continues with the state untouched; but the unrecognized verb
`quitfoo` — equally reported as an unknown command, state untouched —
terminates the loop, because the loop's break test checks the raw input for
the `!quit`/`!exit` prefixes instead of the parsed verb: the code's
behaviour at the failing input `!quitfoo` of the C5 code bug. -/
theorem unknown_verb_break_slip (env : Env) (st : TutorState) :
    runTurn env st "!oops" = ⟨st, .cont, false, .unknownCommand "oops"⟩ ∧
    runTurn env st "!quitfoo" = ⟨st, .brk, false, .unknownCommand "quitfoo"⟩ :=
  ⟨rfl, rfl⟩

/-- C6: verb matching in the handler is case-insensitive — `!QUIT` is
recognized as the quit verb and the farewell is reported — but the loop's
break test is case-sensitive on the raw input, so `!QUIT` does not terminate
the loop while `!quit` and `!exit` do: the code's behaviour at the failing
input `!QUIT` of the C6 code bug. -/
theorem uppercase_quit_no_break (env : Env) (st : TutorState) :
    handle_command env st "!QUIT" = .handled st .goodbye ∧
    runTurn env st "!QUIT" = ⟨st, .cont, false, .goodbye⟩ ∧
    runTurn env st "!quit" = ⟨st, .brk, false, .goodbye⟩ ∧
    runTurn env st "!exit" = ⟨st, .brk, false, .goodbye⟩ :=
  ⟨rfl, rfl, rfl, rfl⟩

/-- C7: on a question turn (non-command, non-empty input, selected model
resolvable), a failed completion call leaves the history exactly as it was,
reports the failure, and continues the loop; and whenever the history
changed at all, the completion succeeded with a non-empty answer and exactly
that one pair was appended and rendered. -/
theorem failed_turn_discarded (env : Env) (st : TutorState) (q : String)
    (info : ModelInfo)
    (hq : pyStartsWith q "!" = false) (hne : q ≠ "")
    (hm : lookupModel st.current_model = some info) :
    (ask_question env info = none →
      runTurn env st q = ⟨st, .cont, true, .noResponse⟩) ∧
    ((runTurn env st q).state.conversation_history ≠ st.conversation_history →
      ∃ a, ask_question env info = some a ∧ a ≠ "" ∧
        runTurn env st q =
          ⟨{ st with conversation_history := st.conversation_history ++ [(q, a)] },
            .cont, true, .answered a⟩) := by
  have hrun : runTurn env st q =
      (match ask_question env info with
       | some answer =>
         if answer ≠ "" then
           ⟨{ st with conversation_history := st.conversation_history ++ [(q, answer)] },
             .cont, true, .answered answer⟩
         else ⟨st, .cont, true, .noResponse⟩
       | none => ⟨st, .cont, true, .noResponse⟩) := by
    unfold runTurn
    rw [if_neg (by simpa using hne), handle_command_not_sentinel env st q hq, hm]
  constructor
  · intro h0
    rw [hrun, h0]
  · intro hch
    rw [hrun] at hch ⊢
    cases hask : ask_question env info with
    | none => rw [hask] at hch; simp at hch
    | some a =>
      rw [hask] at hch
      dsimp only at hch ⊢
      by_cases ha : a = ""
      · rw [if_neg (not_not_intro ha)] at hch; simp at hch
      · exact ⟨a, rfl, ha, by rw [if_pos ha]⟩

/-- Witness for C7: a question turn against the downed local backend leaves
the initial state untouched. -/
theorem failed_turn_discarded_witness :
    pyStartsWith "what is recursion" "!" = false ∧
    "what is recursion" ≠ "" ∧
    lookupModel initialState.current_model = some infoLlama ∧
    ((ask_question envDown infoLlama = none →
      runTurn envDown initialState "what is recursion" =
        ⟨initialState, .cont, true, .noResponse⟩) ∧
    ((runTurn envDown initialState "what is recursion").state.conversation_history ≠
        initialState.conversation_history →
      ∃ a, ask_question envDown infoLlama = some a ∧ a ≠ "" ∧
        runTurn envDown initialState "what is recursion" =
          ⟨{ initialState with conversation_history :=
              initialState.conversation_history ++ [("what is recursion", a)] },
            .cont, true, .answered a⟩)) :=
  ⟨by decide, by decide, by decide,
    failed_turn_discarded envDown initialState "what is recursion" infoLlama
      (by decide) (by decide) (by decide)⟩

/-- C8: the session invariant is established at initialization and preserved
by every turn of the loop (every command and every question turn): the
selected key is always a key of the registry, and the history either stays
as it was, is fully cleared, or grows by exactly one appended pair at the
end. -/
theorem session_invariant (env : Env) (st : TutorState) (input : String)
    (h : modelKeys.contains st.current_model = true) :
    modelKeys.contains initialState.current_model = true ∧
    modelKeys.contains (runTurn env st input).state.current_model = true ∧
    ((runTurn env st input).state.conversation_history = st.conversation_history ∨
     (runTurn env st input).state.conversation_history = [] ∨
     ∃ p, (runTurn env st input).state.conversation_history =
       st.conversation_history ++ [p]) := by
  refine ⟨by decide, ?_⟩
  unfold runTurn
  split
  · exact ⟨h, Or.inl rfl⟩
  · split
    · exact ⟨h, Or.inl rfl⟩
    · next st' rep heq =>
      have hh := handle_command_handled env st input st' rep heq
      have hcm : modelKeys.contains st'.current_model = true := by
        rcases hh.1 with h1 | h1
        · rw [h1]; exact h
        · exact h1
      split
      · exact ⟨hcm, (hh.2).imp id Or.inl⟩
      · exact ⟨hcm, (hh.2).imp id Or.inl⟩
    · split
      · exact ⟨h, Or.inl rfl⟩
      · split
        · split
          · next a _ _ =>
            exact ⟨h, Or.inr (Or.inr ⟨(input, a), rfl⟩)⟩
          · exact ⟨h, Or.inl rfl⟩
        · exact ⟨h, Or.inl rfl⟩

/-- Witness for C8 at a successful model-switch turn from the initial state. -/
theorem session_invariant_witness :
    modelKeys.contains initialState.current_model = true ∧
    (modelKeys.contains initialState.current_model = true ∧
      modelKeys.contains (runTurn envUp initialState "!model gpt").state.current_model = true ∧
      ((runTurn envUp initialState "!model gpt").state.conversation_history =
          initialState.conversation_history ∨
       (runTurn envUp initialState "!model gpt").state.conversation_history = [] ∨
       ∃ p, (runTurn envUp initialState "!model gpt").state.conversation_history =
         initialState.conversation_history ++ [p])) :=
  ⟨by decide, session_invariant envUp initialState "!model gpt" (by decide)⟩

/-- C9 counterexample: in the concrete world `envC9` the cloud backend is
unreachable at call time, yet the source reports the `gpt` model available —
both on a switch and on the welcome render — because the cloud model's
availability is the startup client handle, not a fresh reachability check of
the backend: the claim that every reference performs a fresh reachability
check for each of the two providers is false. -/
theorem availability_not_live_counterexample :
    test_model_availability envC9 "gpt" = true ∧
    freshAvailability envC9 "gpt" = false ∧
    envC9.openaiReachableNow = false ∧
    display_welcome envC9 = [("gpt", true), ("llama", false)] := by
  decide

/-- C9 amended: availability of the local model is a fresh probe of the
local daemon in the call-time world on every reference (every switch and
every welcome render re-lists the installed models), but availability of the
cloud model reuses the client handle computed at startup and ignores the
backend's call-time reachability. -/
theorem availability_freshness (env : Env) :
    test_model_availability env "llama" = freshAvailability env "llama" ∧
    test_model_availability env "gpt" = env.openaiClient ∧
    display_welcome env =
      [("gpt", env.openaiClient), ("llama", freshAvailability env "llama")] :=
  ⟨rfl, rfl, rfl⟩

/-- C10: the bare sentinel input `!` splits into zero words, the handler's
access of the first word is out of bounds, and the resulting exception
escapes the handler to the loop's generic unexpected-error handler, which
reports it and continues with the selection and the history unchanged; no
backend call happens. -/
theorem bare_sentinel_index_error (env : Env) (st : TutorState) :
    pySplit (String.mk ("!".data.drop 1)) = [] ∧
    handle_command env st "!" = .indexError ∧
    runTurn env st "!" = ⟨st, .cont, false, .unexpectedError⟩ :=
  ⟨rfl, rfl, rfl⟩

end InteractiveAiTutor
